import Mathlib

/-!
Shallow embedding of the order-lifecycle and payment-reconciliation
subsystem of the LocalChef server (src/index.js).

Modelling conventions:
- MongoDB ObjectId values for orders are modelled as Nat; the string id of
  a request parameter is assumed well formed (a malformed id throws before
  any store access and is out of scope here).
- Document fields that may be absent or null are Option-valued; the value
  none stands for "null or missing".  The Node MongoDB driver (with its
  default ignoreUndefined = false) serialises a JavaScript undefined query
  value as null, and a null filter matches documents whose field is null
  or missing; hence a filter built from an undefined property compares
  against none here.
- Timestamps (new Date().toISOString()) are modelled as Nat instants.
- updateOne on a collection is modelled by updateFirst: it rewrites the
  first document matching the filter and reports modifiedCount 1 exactly
  when the rewritten document differs from the original (MongoDB reports
  modifiedCount 0 when the update leaves the document unchanged).
- Statuses are raw strings, exactly as stored by the handlers.
-/

namespace LocalChef

/-- Order document, with the fields the order handlers read and write. -/
structure Order where
  id : Nat
  mealId : String
  mealName : String
  chefId : Option String
  chefName : String
  price : Int
  userEmail : String
  orderStatus : String
  paymentStatus : String
  orderTime : Nat
  acceptedAt : Option Nat := none
  rejectedAt : Option Nat := none
  cancelledAt : Option Nat := none
deriving DecidableEq

/-- Payment document, as inserted by POST /payments/create-payment. -/
structure Payment where
  orderId : Option Nat
  email : String
  amount : Int
  currency : String
  status : String
  sessionId : String
  createdAt : Nat
  paidAt : Option Nat := none
deriving DecidableEq

/-- The persistent record store: the orders and payments collections. -/
structure Store where
  orders : List Order
  payments : List Payment
deriving DecidableEq

/-- Model of collection.updateOne(filter, set): rewrite the first document
satisfying the filter; the second component is modifiedCount, which is 1
exactly when the matched document actually changed. -/
def updateFirst {α : Type} [DecidableEq α] (p : α → Bool) (f : α → α) :
    List α → List α × Nat
  | [] => ([], 0)
  | x :: xs =>
    if p x then
      (f x :: xs, if f x = x then 0 else 1)
    else
      (x :: (updateFirst p f xs).1, (updateFirst p f xs).2)

/-- The JWT payload signed by POST /auth/login: exactly the fields
email, role and id (the Mongo _id of the user, as a string). -/
structure TokenPayload where
  email : String
  role : String
  id : String
deriving DecidableEq

/-- Reading req.user.chefId: the login token payload has no chefId
property, so the access yields undefined, which the driver serialises to
null in a query filter; modelled as the constant none. -/
def TokenPayload.chefId (_ : TokenPayload) : Option String := none

/-- A user document, as far as POST /auth/login reads it. -/
structure UserDoc where
  id : String
  name : String
  email : String
  role : String
deriving DecidableEq

/-- The token payload issued by POST /auth/login for a user:
jwt.sign with email, role and id only. -/
def loginToken (u : UserDoc) : TokenPayload :=
  { email := u.email, role := u.role, id := u.id }

/-- Response of the order mutation endpoints: 403 from verifyRole, or the
success JSON carrying modifiedCount. -/
inductive OrderMutResp where
  | forbidden
  | ok (modifiedCount : Nat)
deriving DecidableEq

/-- PUT /orders/:id/cancel — verifyRole("user"); updateOne with filter
on _id and userEmail only, setting orderStatus cancelled and cancelledAt. -/
def cancelOrder (u : TokenPayload) (orderId : Nat) (now : Nat) (st : Store) :
    OrderMutResp × Store :=
  if u.role ≠ "user" then (.forbidden, st)
  else
    let r := updateFirst
      (fun o => decide (o.id = orderId ∧ o.userEmail = u.email))
      (fun o => { o with orderStatus := "cancelled", cancelledAt := some now })
      st.orders
    (.ok r.2, { st with orders := r.1 })

/-- PUT /orders/:id/accept — verifyRole("chef"); updateOne with filter on
_id and chefId equal to req.user.chefId, setting orderStatus accepted and
acceptedAt. -/
def acceptOrder (u : TokenPayload) (orderId : Nat) (now : Nat) (st : Store) :
    OrderMutResp × Store :=
  if u.role ≠ "chef" then (.forbidden, st)
  else
    let r := updateFirst
      (fun o => decide (o.id = orderId ∧ o.chefId = u.chefId))
      (fun o => { o with orderStatus := "accepted", acceptedAt := some now })
      st.orders
    (.ok r.2, { st with orders := r.1 })

/-- PUT /orders/:id/reject — verifyRole("chef"); updateOne with filter on
_id and chefId equal to req.user.chefId, setting orderStatus rejected and
rejectedAt. -/
def rejectOrder (u : TokenPayload) (orderId : Nat) (now : Nat) (st : Store) :
    OrderMutResp × Store :=
  if u.role ≠ "chef" then (.forbidden, st)
  else
    let r := updateFirst
      (fun o => decide (o.id = orderId ∧ o.chefId = u.chefId))
      (fun o => { o with orderStatus := "rejected", rejectedAt := some now })
      st.orders
    (.ok r.2, { st with orders := r.1 })

/-- Request body of POST /orders; absent JSON fields are none. -/
structure OrderBody where
  mealId : Option String
  mealName : Option String
  foodName : Option String
  chefId : Option String
  chefName : Option String
  price : Option Int
deriving DecidableEq

/-- JavaScript truthiness of a possibly missing string: undefined and the
empty string are falsy. -/
def truthyStr : Option String → Bool
  | none => false
  | some s => decide (s ≠ "")

/-- JavaScript truthiness of a possibly missing number: undefined and 0
are falsy; every other number, negatives included, is truthy. -/
def truthyNum : Option Int → Bool
  | none => false
  | some n => decide (n ≠ 0)

/-- JavaScript a || b on possibly missing strings: a when truthy, else b. -/
def jsOr (a b : Option String) : Option String :=
  if truthyStr a then a else b

/-- Response of POST /orders. -/
inductive PlaceResp where
  | forbidden
  | missingFields
  | created (insertedId : Nat)
deriving DecidableEq

/-- POST /orders — verifyRole("user"); normalises mealName || foodName,
rejects when any required field is falsy, otherwise inserts the order with
orderStatus pending, paymentStatus Pending and orderTime now.  The Mongo
driver assigns the _id, modelled by the newId argument. -/
def placeOrder (u : TokenPayload) (b : OrderBody) (now : Nat) (newId : Nat)
    (st : Store) : PlaceResp × Store :=
  if u.role ≠ "user" then (.forbidden, st)
  else
    let finalMealName := jsOr b.mealName b.foodName
    if !(truthyStr b.mealId && truthyStr finalMealName && truthyStr b.chefId
          && truthyStr b.chefName && truthyNum b.price) then
      (.missingFields, st)
    else
      let order : Order :=
        { id := newId
          mealId := b.mealId.getD ""
          mealName := finalMealName.getD ""
          chefId := some (b.chefId.getD "")
          chefName := b.chefName.getD ""
          price := b.price.getD 0
          userEmail := u.email
          orderStatus := "pending"
          paymentStatus := "Pending"
          orderTime := now }
      (.created newId, { st with orders := st.orders ++ [order] })

/-- The hosted checkout session request the handler sends to the gateway:
currency defaulted to usd, unit amount in cents, orderId as metadata. -/
structure CheckoutRequest where
  currency : String
  unitAmount : Int
  orderId : Option Nat
deriving DecidableEq

/-- A session returned by the gateway. -/
structure GatewaySession where
  id : String
  url : String
deriving DecidableEq

/-- Response of POST /payments/create-payment: 500 on any thrown error,
or the success JSON with the session id and redirect url. -/
inductive PayResp where
  | creationFailed
  | ok (sessionId url : String)
deriving DecidableEq

/-- The checkout request built by the handler for the given body. -/
def checkoutRequestOf (amount : Int) (currency : Option String)
    (orderId : Option Nat) : CheckoutRequest :=
  { currency := currency.getD "usd", unitAmount := amount * 100,
    orderId := orderId }

/-- POST /payments/create-payment — verifyToken only; no validation of the
amount: the gateway is always invoked, and only when it returns a session
is a Payment with status pending and the returned session id inserted. -/
def createPayment (u : TokenPayload) (amount : Int) (currency : Option String)
    (orderId : Option Nat)
    (gateway : CheckoutRequest → Except String GatewaySession)
    (now : Nat) (st : Store) : PayResp × Store :=
  match gateway (checkoutRequestOf amount currency orderId) with
  | .error _ => (.creationFailed, st)
  | .ok session =>
    let payRecord : Payment :=
      { orderId := orderId
        email := u.email
        amount := amount
        currency := currency.getD "usd"
        status := "pending"
        sessionId := session.id
        createdAt := now }
    (.ok session.id session.url, { st with payments := st.payments ++ [payRecord] })

/-- A verified gateway event: its type, the session object id, and the
metadata orderId when present (event.data.object and its metadata). -/
structure WebhookEvent where
  type : String
  sessionId : String
  orderId : Option Nat
deriving DecidableEq

/-- Response of POST /payments/webhook: HTTP 400 on signature failure,
otherwise the received true JSON. -/
inductive WebhookResp where
  | badSignature
  | received
deriving DecidableEq

/-- The update applied to the matched payment on settlement. -/
def paySettle (now : Nat) (p : Payment) : Payment :=
  { p with status := "paid", paidAt := some now }

/-- The update applied to the referenced order on settlement: both the
payment axis and the fulfillment axis are overwritten unconditionally. -/
def orderSettle (o : Order) : Order :=
  { o with paymentStatus := "paid", orderStatus := "accepted" }

/-- POST /payments/webhook — stripe.webhooks.constructEvent either throws
(signature failure, modelled by the none argument, answered with HTTP 400
and no store access) or yields the verified event.  On a
checkout.session.completed event the handler updates the payment matching
the session id, then, when the metadata carries an orderId, updates that
order; every verified event is answered with received true. -/
def webhookHandler (event : Option WebhookEvent) (now : Nat) (st : Store) :
    WebhookResp × Store :=
  match event with
  | none => (.badSignature, st)
  | some e =>
    if e.type = "checkout.session.completed" then
      let ps := (updateFirst (fun p => decide (p.sessionId = e.sessionId))
        (paySettle now) st.payments).1
      let os :=
        match e.orderId with
        | some oid =>
          (updateFirst (fun o => decide (o.id = oid)) orderSettle st.orders).1
        | none => st.orders
      (.received, { orders := os, payments := ps })
    else
      (.received, st)

/-! Concrete fixtures used by counterexamples and witnesses. -/

/-- A pending order of customer u@x.com with counterparty chef c1. -/
def sampleOrder : Order :=
  { id := 1, mealId := "m1", mealName := "Rice", chefId := some "c1",
    chefName := "Chef One", price := 20, userEmail := "u@x.com",
    orderStatus := "pending", paymentStatus := "Pending", orderTime := 0 }

/-- The sample order after the chef accepted it. -/
def acceptedSample : Order := { sampleOrder with orderStatus := "accepted" }

/-- The sample order after the customer cancelled it. -/
def cancelledSample : Order := { sampleOrder with orderStatus := "cancelled" }

/-- An order whose chefId field is missing, as the raw body of
POST /user/orders can produce. -/
def orphanOrder : Order := { sampleOrder with chefId := none }

/-- An orphan order that was already cancelled. -/
def orphanCancelled : Order := { orphanOrder with orderStatus := "cancelled" }

/-- A pending payment for the sample order, keyed by session sess_1. -/
def samplePayment : Payment :=
  { orderId := some 1, email := "u@x.com", amount := 20, currency := "usd",
    status := "pending", sessionId := "sess_1", createdAt := 0 }

/-- A verified completed-checkout event for session sess_1 and order 1. -/
def sampleEvent : WebhookEvent :=
  { type := "checkout.session.completed", sessionId := "sess_1",
    orderId := some 1 }

/-- A customer token. -/
def userTok : TokenPayload := { email := "u@x.com", role := "user", id := "uid1" }

/-- A chef token as issued at login: no chefId claim. -/
def chefTok : TokenPayload := { email := "c@x.com", role := "chef", id := "cid1" }

/-- A gateway that accepts every checkout request. -/
def okGateway : CheckoutRequest → Except String GatewaySession :=
  fun _ => .ok { id := "sess_z", url := "http-redirect" }

/-- A gateway that refuses every checkout request. -/
def downGateway : CheckoutRequest → Except String GatewaySession :=
  fun _ => .error "gateway unreachable"

/-! Helper lemmas about the updateOne model. -/

/-- When no document matches the filter, updateOne is a no-op reporting
modifiedCount 0. -/
theorem updateFirst_of_none_matches {α : Type} [DecidableEq α]
    (p : α → Bool) (f : α → α) (l : List α)
    (h : ∀ x ∈ l, p x = false) : updateFirst p f l = (l, 0) := by
  induction l with
  | nil => rfl
  | cons x xs ih =>
    have hx : p x = false := h x (List.mem_cons_self x xs)
    have hxs : updateFirst p f xs = (xs, 0) :=
      ih (fun y hy => h y (List.mem_cons_of_mem x hy))
    simp [updateFirst, hx, hxs]

/-- Re-running an updateOne whose update function is absorbing (g after f
equals g) and filter-preserving lands on the same documents as running
only the second update. -/
theorem updateFirst_absorb {α : Type} [DecidableEq α]
    (p : α → Bool) (f g : α → α) (l : List α)
    (hf : ∀ x, p (f x) = p x) (hgf : ∀ x, g (f x) = g x) :
    (updateFirst p g (updateFirst p f l).1).1 = (updateFirst p g l).1 := by
  induction l with
  | nil => rfl
  | cons x xs ih =>
    by_cases hx : p x = true
    · simp [updateFirst, hx, hf x, hgf x]
    · have hx' : p x = false := by
        cases hpx : p x with
        | false => rfl
        | true => exact absurd hpx hx
      simp [updateFirst, hx', ih]

/-! Claim C1. -/

/-- C1, counterexample: the claim states that for a pending order at most
one of cancel, accept, reject can ever succeed and that after the order
leaves pending every further such request fails without modifying it.  On
the concrete store holding one pending order with a missing chefId, the
accept of the chef succeeds (modifiedCount 1) and the subsequent cancel of
the customer succeeds as well (modifiedCount 1), leaving the order
cancelled: two state-changing operations succeeded and the order left the
pending state twice. -/
theorem c1_two_transitions_counterexample :
    (acceptOrder chefTok 1 5 ⟨[orphanOrder], []⟩).1 = .ok 1 ∧
    (cancelOrder userTok 1 6 (acceptOrder chefTok 1 5 ⟨[orphanOrder], []⟩).2).1
      = .ok 1 ∧
    ((cancelOrder userTok 1 6
        (acceptOrder chefTok 1 5 ⟨[orphanOrder], []⟩).2).2).orders.map
      Order.orderStatus = ["cancelled"] := by decide

/-- C1, amended: none of cancel, accept, reject checks the prior
orderStatus, so an order can transition out of pending more than once.
For every pending order whose chefId is null or missing, an accept by any
chef succeeds (modifiedCount 1), and a subsequent cancel by the owning
customer succeeds again (modifiedCount 1), leaving the order cancelled
with both acceptedAt and cancelledAt set. -/
theorem c1_amended_no_pending_guard (o : Order) (tc tu : TokenPayload)
    (t1 t2 : Nat) (ps : List Payment)
    (hc : tc.role = "chef") (hu : tu.role = "user")
    (ho : o.chefId = none) (hown : o.userEmail = tu.email)
    (hp : o.orderStatus = "pending") :
    (acceptOrder tc o.id t1 ⟨[o], ps⟩).1 = .ok 1 ∧
    (cancelOrder tu o.id t2 (acceptOrder tc o.id t1 ⟨[o], ps⟩).2).1 = .ok 1 ∧
    ((cancelOrder tu o.id t2 (acceptOrder tc o.id t1 ⟨[o], ps⟩).2).2).orders
      = [{ o with
            orderStatus := "cancelled"
            acceptedAt := some t1
            cancelledAt := some t2 }] := by
  obtain ⟨oid, omid, omn, ocid, ocn, opr, oue, oos, ops, oot, oaa, ora, oca⟩ := o
  dsimp only at ho hown hp
  subst ho; subst hown; subst hp
  refine ⟨?_, ?_, ?_⟩ <;>
    simp [acceptOrder, cancelOrder, updateFirst, hc, hu,
      TokenPayload.chefId, Order.mk.injEq]

/-- C1, witness for the amended theorem at a concrete store. -/
theorem c1_amended_no_pending_guard_witness :
    chefTok.role = "chef" ∧ userTok.role = "user" ∧
    orphanOrder.chefId = none ∧ orphanOrder.userEmail = userTok.email ∧
    orphanOrder.orderStatus = "pending" ∧
    ((acceptOrder chefTok orphanOrder.id 5 ⟨[orphanOrder], []⟩).1 = .ok 1 ∧
     (cancelOrder userTok orphanOrder.id 6
        (acceptOrder chefTok orphanOrder.id 5 ⟨[orphanOrder], []⟩).2).1
        = .ok 1 ∧
     ((cancelOrder userTok orphanOrder.id 6
        (acceptOrder chefTok orphanOrder.id 5 ⟨[orphanOrder], []⟩).2).2).orders
       = [{ orphanOrder with
            orderStatus := "cancelled"
            acceptedAt := some 5
            cancelledAt := some 6 }]) :=
  ⟨by decide, by decide, by decide, by decide, by decide,
   c1_amended_no_pending_guard orphanOrder chefTok userTok 5 6 []
     (by decide) (by decide) (by decide) (by decide) (by decide)⟩

/-! Claim C2. -/

/-- C2, counterexample: the claim states that a verified settlement
notification for an order no longer pending leaves orderStatus unchanged.
On the concrete store holding the cancelled sample order and its pending
payment, delivering the verified completed event turns orderStatus into
accepted. -/
theorem c2_counterexample :
    cancelledSample.orderStatus = "cancelled" ∧
    ((webhookHandler (some sampleEvent) 9
        ⟨[cancelledSample], [samplePayment]⟩).2).orders.map Order.orderStatus
      = ["accepted"] := by decide

/-- C2, amended: the reconciliation handler overwrites both axes
unconditionally.  For every order, whatever its current orderStatus, a
verified completed event whose metadata references that order sets
paymentStatus to paid and orderStatus to accepted, and responds with
received true. -/
theorem c2_amended_webhook_overwrites_orderStatus (o : Order) (sid : String)
    (rest : List Order) (ps : List Payment) (now : Nat) :
    (webhookHandler (some ⟨"checkout.session.completed", sid, some o.id⟩) now
      ⟨o :: rest, ps⟩).1 = .received ∧
    ((webhookHandler (some ⟨"checkout.session.completed", sid, some o.id⟩) now
      ⟨o :: rest, ps⟩).2).orders
      = { o with paymentStatus := "paid", orderStatus := "accepted" } :: rest := by
  constructor
  · simp [webhookHandler]
  · simp [webhookHandler, updateFirst, orderSettle]

/-! Claim C3. -/

/-- C3, counterexample: the claim states that redelivering the same
verified settlement notification yields the same final store state as
delivering it once.  On the concrete store holding the accepted sample
order and its pending payment, the first delivery at instant 1 stamps
paidAt with 1, and the redelivery at instant 2 restamps paidAt with 2, so
the final store differs from the store after a single delivery. -/
theorem c3_counterexample :
    ((webhookHandler (some sampleEvent) 1
        ⟨[acceptedSample], [samplePayment]⟩).2).payments.map Payment.paidAt
      = [some 1] ∧
    ((webhookHandler (some sampleEvent) 2
        ((webhookHandler (some sampleEvent) 1
          ⟨[acceptedSample], [samplePayment]⟩).2)).2).payments.map Payment.paidAt
      = [some 2] ∧
    (webhookHandler (some sampleEvent) 2
        ((webhookHandler (some sampleEvent) 1
          ⟨[acceptedSample], [samplePayment]⟩).2)).2
      ≠ (webhookHandler (some sampleEvent) 1
          ⟨[acceptedSample], [samplePayment]⟩).2 := by decide

/-- C3, amended: redelivery of the same verified event is answered with
received true and is absorbing rather than literally idempotent: the store
after delivering at t1 and again at t2 equals the store after a single
delivery at t2 — every status field ends as after one delivery, and only
the paidAt stamp of the matched payment follows the last delivery, so
redelivery at an equal timestamp changes nothing. -/
theorem c3_amended_redelivery_absorbs (e : WebhookEvent) (t1 t2 : Nat)
    (st : Store) :
    (webhookHandler (some e) t2 ((webhookHandler (some e) t1 st).2)).1
      = .received ∧
    (webhookHandler (some e) t2 ((webhookHandler (some e) t1 st).2)).2
      = (webhookHandler (some e) t2 st).2 := by
  by_cases ht : e.type = "checkout.session.completed"
  · constructor
    · simp [webhookHandler, ht]
    · cases ho : e.orderId with
      | none =>
        simp [webhookHandler, ht, ho, Store.mk.injEq]
        exact updateFirst_absorb _ _ _ _ (fun x => rfl) (fun x => rfl)
      | some oid =>
        simp [webhookHandler, ht, ho, Store.mk.injEq]
        constructor
        · exact updateFirst_absorb _ _ _ _ (fun x => rfl) (fun x => rfl)
        · exact updateFirst_absorb _ _ _ _ (fun x => rfl) (fun x => rfl)
  · constructor <;> simp [webhookHandler, ht]

/-! Claim C4. -/

/-- C4: a webhook request whose payload fails signature verification
(stripe.webhooks.constructEvent throws, modelled by the none event) is
answered with HTTP 400 and no Payment or Order record is written: the
store is returned unchanged. -/
theorem c4_bad_signature_no_write (now : Nat) (st : Store) :
    webhookHandler none now st = (.badSignature, st) := rfl

/-! Claim C5. -/

/-- C5, counterexample: the claim states that a verified completed event
matching no stored Payment writes neither a Payment nor an Order.  On the
concrete store with no payments at all and the pending sample order, the
event carrying orderId 1 in its metadata still rewrites the order to
paymentStatus paid and orderStatus accepted, so the store changes. -/
theorem c5_counterexample :
    (webhookHandler (some sampleEvent) 3 ⟨[sampleOrder], []⟩).2
      ≠ ⟨[sampleOrder], []⟩ ∧
    ((webhookHandler (some sampleEvent) 3
        ⟨[sampleOrder], []⟩).2).orders.map Order.paymentStatus = ["paid"] ∧
    ((webhookHandler (some sampleEvent) 3
        ⟨[sampleOrder], []⟩).2).orders.map Order.orderStatus = ["accepted"] := by
  decide

/-- C5, amended: when no stored Payment matches the session id of a
verified completed event, the payments collection is indeed left unchanged
and the handler responds received true, but the event is a full no-op only
when its metadata carries no orderId: an orderId in the metadata still
causes the referenced Order to be rewritten. -/
theorem c5_amended_unknown_session (sid : String) (oid : Option Nat)
    (now : Nat) (st : Store)
    (hnp : ∀ p ∈ st.payments, p.sessionId ≠ sid) :
    (webhookHandler (some ⟨"checkout.session.completed", sid, oid⟩) now st).1
      = .received ∧
    ((webhookHandler (some ⟨"checkout.session.completed", sid, oid⟩) now
        st).2).payments = st.payments ∧
    (oid = none →
      (webhookHandler (some ⟨"checkout.session.completed", sid, oid⟩) now st).2
        = st) := by
  have hps : updateFirst (fun p => decide (p.sessionId = sid)) (paySettle now)
      st.payments = (st.payments, 0) :=
    updateFirst_of_none_matches _ _ _ (fun p hp => decide_eq_false (hnp p hp))
  refine ⟨by simp [webhookHandler], ?_, ?_⟩
  · simp [webhookHandler, hps]
  · intro h
    subst h
    simp [webhookHandler, hps]

/-- C5, witness for the amended theorem at a concrete store. -/
theorem c5_amended_unknown_session_witness :
    (∀ p ∈ ([samplePayment] : List Payment), p.sessionId ≠ "sess_zz") ∧
    ((webhookHandler (some ⟨"checkout.session.completed", "sess_zz", none⟩) 3
        ⟨[sampleOrder], [samplePayment]⟩).1 = .received ∧
     ((webhookHandler (some ⟨"checkout.session.completed", "sess_zz", none⟩) 3
        ⟨[sampleOrder], [samplePayment]⟩).2).payments = [samplePayment] ∧
     (none = (none : Option Nat) →
       (webhookHandler (some ⟨"checkout.session.completed", "sess_zz", none⟩) 3
         ⟨[sampleOrder], [samplePayment]⟩).2
         = ⟨[sampleOrder], [samplePayment]⟩)) :=
  ⟨by decide,
   c5_amended_unknown_session "sess_zz" none 3
     ⟨[sampleOrder], [samplePayment]⟩ (by decide)⟩

/-! Claim C6. -/

/-- C6, counterexample: the claim states that cancelling an
already-accepted order fails with InvalidStateError and leaves it
unchanged.  On the concrete store holding the accepted sample order, the
cancel of the owning customer succeeds with modifiedCount 1 and rewrites
the order to cancelled. -/
theorem c6_counterexample :
    acceptedSample.orderStatus = "accepted" ∧
    cancelOrder userTok 1 7 ⟨[acceptedSample], []⟩
      = (.ok 1,
         ⟨[{ acceptedSample with
              orderStatus := "cancelled"
              cancelledAt := some 7 }], []⟩) := by decide

/-- C6, amended: cancel checks only that the order matches the requested
id and the userEmail of the requester — there is no pending-state check
and no NotFoundError / ForbiddenError / InvalidStateError: the endpoint
always answers success with a modifiedCount.  Whenever the matched order
is not already cancelled, the cancel succeeds with modifiedCount 1 and
sets orderStatus cancelled and cancelledAt now, whatever the prior
orderStatus; in particular an already-accepted order is cancelled rather
than rejected with an error. -/
theorem c6_amended_cancel_ignores_state (o : Order) (u : TokenPayload)
    (now : Nat) (rest : List Order) (ps : List Payment)
    (hrole : u.role = "user") (hown : o.userEmail = u.email)
    (hst : o.orderStatus ≠ "cancelled") :
    cancelOrder u o.id now ⟨o :: rest, ps⟩
      = (.ok 1,
         ⟨{ o with orderStatus := "cancelled", cancelledAt := some now }
           :: rest, ps⟩) := by
  obtain ⟨oid, omid, omn, ocid, ocn, opr, oue, oos, ops, oot, oaa, ora, oca⟩ := o
  dsimp only at hown hst ⊢
  subst hown
  simp [cancelOrder, updateFirst, hrole, Order.mk.injEq, hst, Ne.symm hst]

/-- C6, witness for the amended theorem at a concrete store. -/
theorem c6_amended_cancel_ignores_state_witness :
    userTok.role = "user" ∧ acceptedSample.userEmail = userTok.email ∧
    acceptedSample.orderStatus ≠ "cancelled" ∧
    cancelOrder userTok acceptedSample.id 7 ⟨[acceptedSample], []⟩
      = (.ok 1,
         ⟨[{ acceptedSample with
              orderStatus := "cancelled"
              cancelledAt := some 7 }], []⟩) :=
  ⟨by decide, by decide, by decide,
   c6_amended_cancel_ignores_state acceptedSample userTok 7 [] []
     (by decide) (by decide) (by decide)⟩

/-! Claim C7. -/

/-- C7, counterexample: the claim states that accept succeeds only when
the requesting chef matches the orders chefId and the order is still
pending.  On the concrete store holding an order whose chefId field is
missing and whose orderStatus is cancelled, the accept of an arbitrary
chef succeeds with modifiedCount 1 and rewrites the order to accepted. -/
theorem c7_counterexample :
    orphanCancelled.orderStatus = "cancelled" ∧
    (acceptOrder chefTok 1 4 ⟨[orphanCancelled], []⟩).1 = .ok 1 ∧
    ((acceptOrder chefTok 1 4
        ⟨[orphanCancelled], []⟩).2).orders.map Order.orderStatus
      = ["accepted"] := by decide

/-- C7, amended: accept and reject filter on the order id and on chefId
equal to the chefId claim of the requester token; the login token carries
no such claim, so the filter compares chefId against null and matches
exactly the orders whose chefId is null or missing.  No pending-state
check and no error taxonomy exist: on such an order, accept and reject
succeed from any non-terminal-matching state with modifiedCount 1,
setting the terminal status and its timestamp. -/
theorem c7_amended_accept_reject_null_chef (o : Order) (u : TokenPayload)
    (now : Nat) (rest : List Order) (ps : List Payment)
    (hrole : u.role = "chef") (hchef : o.chefId = none)
    (ha : o.orderStatus ≠ "accepted") (hr : o.orderStatus ≠ "rejected") :
    acceptOrder u o.id now ⟨o :: rest, ps⟩
      = (.ok 1,
         ⟨{ o with orderStatus := "accepted", acceptedAt := some now }
           :: rest, ps⟩) ∧
    rejectOrder u o.id now ⟨o :: rest, ps⟩
      = (.ok 1,
         ⟨{ o with orderStatus := "rejected", rejectedAt := some now }
           :: rest, ps⟩) := by
  obtain ⟨oid, omid, omn, ocid, ocn, opr, oue, oos, ops, oot, oaa, ora, oca⟩ := o
  dsimp only at hchef ha hr ⊢
  subst hchef
  constructor <;>
    simp [acceptOrder, rejectOrder, updateFirst, hrole, TokenPayload.chefId,
      Order.mk.injEq, ha, hr, Ne.symm ha, Ne.symm hr]

/-- C7, witness for the amended theorem at a concrete store. -/
theorem c7_amended_accept_reject_null_chef_witness :
    chefTok.role = "chef" ∧ orphanCancelled.chefId = none ∧
    orphanCancelled.orderStatus ≠ "accepted" ∧
    orphanCancelled.orderStatus ≠ "rejected" ∧
    (acceptOrder chefTok orphanCancelled.id 4 ⟨[orphanCancelled], []⟩
      = (.ok 1,
         ⟨[{ orphanCancelled with
              orderStatus := "accepted"
              acceptedAt := some 4 }], []⟩) ∧
     rejectOrder chefTok orphanCancelled.id 4 ⟨[orphanCancelled], []⟩
      = (.ok 1,
         ⟨[{ orphanCancelled with
              orderStatus := "rejected"
              rejectedAt := some 4 }], []⟩)) :=
  ⟨by decide, by decide, by decide, by decide,
   c7_amended_accept_reject_null_chef orphanCancelled chefTok 4 [] []
     (by decide) (by decide) (by decide) (by decide)⟩

/-! Claim C8. -/

/-- A POST /orders body whose fields are all present but whose price is
negative. -/
def negBody : OrderBody :=
  { mealId := some "m1"
    mealName := some "Rice"
    foodName := none
    chefId := some "c1"
    chefName := some "Chef One"
    price := some (-5) }

/-- C8, counterexample: the claim states that placeOrder rejects any
price that is not strictly positive and that a created order carries
paymentStatus unpaid.  With every field present and price -5, the order
is created (no ValidationError), and the stored order carries
paymentStatus Pending, not unpaid. -/
theorem c8_counterexample :
    negBody.price = some (-5) ∧
    (placeOrder userTok negBody 0 1 ⟨[], []⟩).1 = .created 1 ∧
    ((placeOrder userTok negBody 0 1 ⟨[], []⟩).2).orders.map
      Order.paymentStatus = ["Pending"] ∧
    ((placeOrder userTok negBody 0 1 ⟨[], []⟩).2).orders.map
      Order.orderStatus = ["pending"] := by decide

/-- C8, amended: placeOrder validates the required fields by JavaScript
truthiness only — the price check is price different from 0, so negative
prices pass — answering 400 with no write when some field is falsy; for
every truthy input it inserts an Order with orderStatus pending,
paymentStatus the string Pending (capitalised, not unpaid) and orderTime
set to the current time. -/
theorem c8_amended_placeOrder_truthiness (u : TokenPayload) (b : OrderBody)
    (now newId : Nat) (st : Store) (hrole : u.role = "user") :
    placeOrder u b now newId st =
      if truthyStr b.mealId && truthyStr (jsOr b.mealName b.foodName)
          && truthyStr b.chefId && truthyStr b.chefName
          && truthyNum b.price then
        (.created newId,
         { st with orders := st.orders ++
            [{ id := newId
               mealId := b.mealId.getD ""
               mealName := (jsOr b.mealName b.foodName).getD ""
               chefId := some (b.chefId.getD "")
               chefName := b.chefName.getD ""
               price := b.price.getD 0
               userEmail := u.email
               orderStatus := "pending"
               paymentStatus := "Pending"
               orderTime := now }] })
      else (.missingFields, st) := by
  cases hA : (truthyStr b.mealId && truthyStr (jsOr b.mealName b.foodName)
      && truthyStr b.chefId && truthyStr b.chefName && truthyNum b.price) with
  | true => simp [placeOrder, hrole, hA]
  | false => simp [placeOrder, hrole, hA]

/-- C8, witness for the amended theorem at the negative-price body. -/
theorem c8_amended_placeOrder_truthiness_witness :
    userTok.role = "user" ∧
    placeOrder userTok negBody 0 1 ⟨[], []⟩ =
      (if truthyStr negBody.mealId
          && truthyStr (jsOr negBody.mealName negBody.foodName)
          && truthyStr negBody.chefId && truthyStr negBody.chefName
          && truthyNum negBody.price then
        (.created 1,
         { (⟨[], []⟩ : Store) with orders := ([] : List Order) ++
            [{ id := 1
               mealId := negBody.mealId.getD ""
               mealName := (jsOr negBody.mealName negBody.foodName).getD ""
               chefId := some (negBody.chefId.getD "")
               chefName := negBody.chefName.getD ""
               price := negBody.price.getD 0
               userEmail := userTok.email
               orderStatus := "pending"
               paymentStatus := "Pending"
               orderTime := 0 }] })
      else (.missingFields, ⟨[], []⟩)) :=
  ⟨by decide,
   c8_amended_placeOrder_truthiness userTok negBody 0 1 ⟨[], []⟩ (by decide)⟩

/-! Claim C9. -/

/-- C9, counterexample: the claim states that createCheckout fails with
ValidationError for any amount at most 0, creating no session and no
Payment.  With amount 0 and a gateway that returns a session, the handler
answers success and persists a pending Payment with amount 0 keyed by the
returned session id. -/
theorem c9_counterexample :
    ((0 : Int) ≤ 0) ∧
    (createPayment userTok 0 none (some 1) okGateway 5 ⟨[], []⟩).1
      = .ok "sess_z" "http-redirect" ∧
    ((createPayment userTok 0 none (some 1) okGateway 5 ⟨[], []⟩).2).payments
      = [{ orderId := some 1
           email := "u@x.com"
           amount := 0
           currency := "usd"
           status := "pending"
           sessionId := "sess_z"
           createdAt := 5 }] := by decide

/-- C9, amended: the handler performs no amount validation at all: even
for an amount at most 0 it invokes the gateway with the built checkout
request; when the gateway returns a session it persists a Payment with
status pending keyed by the returned session id and answers success, and
when the gateway call fails it answers HTTP 500 with no Payment written. -/
theorem c9_amended_no_amount_validation (u : TokenPayload) (amount : Int)
    (cur : Option String) (oid : Option Nat) (now : Nat) (st : Store)
    (g1 g2 : CheckoutRequest → Except String GatewaySession)
    (sess : GatewaySession) (msg : String)
    (hamt : amount ≤ 0)
    (hg1 : g1 (checkoutRequestOf amount cur oid) = .ok sess)
    (hg2 : g2 (checkoutRequestOf amount cur oid) = .error msg) :
    createPayment u amount cur oid g1 now st
      = (.ok sess.id sess.url,
         { st with payments := st.payments ++
            [{ orderId := oid
               email := u.email
               amount := amount
               currency := cur.getD "usd"
               status := "pending"
               sessionId := sess.id
               createdAt := now }] }) ∧
    createPayment u amount cur oid g2 now st = (.creationFailed, st) := by
  constructor
  · simp [createPayment, hg1]
  · simp [createPayment, hg2]

/-- C9, witness for the amended theorem at amount 0 with the two concrete
gateways. -/
theorem c9_amended_no_amount_validation_witness :
    ((0 : Int) ≤ 0) ∧
    okGateway (checkoutRequestOf 0 none (some 1))
      = .ok { id := "sess_z", url := "http-redirect" } ∧
    downGateway (checkoutRequestOf 0 none (some 1))
      = .error "gateway unreachable" ∧
    (createPayment userTok 0 none (some 1) okGateway 5 ⟨[], []⟩
      = (.ok "sess_z" "http-redirect",
         { (⟨[], []⟩ : Store) with payments := ([] : List Payment) ++
            [{ orderId := some 1
               email := userTok.email
               amount := 0
               currency := "usd"
               status := "pending"
               sessionId := "sess_z"
               createdAt := 5 }] }) ∧
     createPayment userTok 0 none (some 1) downGateway 5 ⟨[], []⟩
      = (.creationFailed, ⟨[], []⟩)) :=
  ⟨by decide, rfl, rfl,
   c9_amended_no_amount_validation userTok 0 none (some 1) 5 ⟨[], []⟩
     okGateway downGateway { id := "sess_z", url := "http-redirect" }
     "gateway unreachable" (by decide) rfl rfl⟩

/-! Claim C10. -/

/-- A chef user document as stored in the users collection. -/
def sampleChefUser : UserDoc :=
  { id := "cid1", name := "Chef", email := "c@x.com", role := "chef" }

/-- C10: the token issued by POST /auth/login carries only email, role
and id, so its chefId claim is absent (null when serialised into a query
filter); consequently, when every stored order with the requested id has
a present, non-null chefId, both PUT /orders/:id/accept and
PUT /orders/:id/reject match nothing: they answer success with
modifiedCount 0 and leave the store unchanged, whatever the orderStatus
of the targeted order. -/
theorem c10_login_token_no_chef_claim (user : UserDoc) (oid now : Nat)
    (st : Store) (hrole : user.role = "chef")
    (horders : ∀ o ∈ st.orders, o.id = oid → o.chefId ≠ none) :
    (loginToken user).chefId = none ∧
    acceptOrder (loginToken user) oid now st = (.ok 0, st) ∧
    rejectOrder (loginToken user) oid now st = (.ok 0, st) := by
  have hfalse : ∀ o ∈ st.orders,
      decide (o.id = oid ∧ o.chefId = (loginToken user).chefId) = false := by
    intro o ho
    apply decide_eq_false
    rintro ⟨h1, h2⟩
    exact horders o ho h1 h2
  refine ⟨rfl, ?_, ?_⟩
  · simp only [acceptOrder]
    rw [if_neg (by simp [loginToken, hrole]),
      updateFirst_of_none_matches _ _ _ hfalse]
  · simp only [rejectOrder]
    rw [if_neg (by simp [loginToken, hrole]),
      updateFirst_of_none_matches _ _ _ hfalse]

/-- C10, witness at a store holding the sample order, whose chefId is the
non-null c1. -/
theorem c10_login_token_no_chef_claim_witness :
    sampleChefUser.role = "chef" ∧
    (∀ o ∈ ([sampleOrder] : List Order), o.id = 1 → o.chefId ≠ none) ∧
    ((loginToken sampleChefUser).chefId = none ∧
     acceptOrder (loginToken sampleChefUser) 1 8 ⟨[sampleOrder], []⟩
       = (.ok 0, ⟨[sampleOrder], []⟩) ∧
     rejectOrder (loginToken sampleChefUser) 1 8 ⟨[sampleOrder], []⟩
       = (.ok 0, ⟨[sampleOrder], []⟩)) :=
  ⟨by decide, by decide,
   c10_login_token_no_chef_claim sampleChefUser 1 8 ⟨[sampleOrder], []⟩
     (by decide) (by decide)⟩

end LocalChef
